import Mathlib

/-!
Verification of the MCP server dispatch core and the HTTP bridge
protocol-translation core of the Agent-Ai-5 repository, as a shallow
embedding in Lean 4.

The embedding follows the Rust sources:
  mcp-server/src/mcp/mod.rs          (JSON-RPC dispatcher)
  mcp-server/src/mcp/types.rs        (wire types)
  mcp-server/src/mcp/plugin_registry.rs
  mcp-server/src/main.rs             (stdio transport loop)
  mcp-server/src/context/neo4j.rs    (connection retry loop)
  mcp-http-bridge/src/lib.rs         (REST handlers)
  mcp-http-bridge/src/mcp_client.rs  (request-id counter, dual-shape parsing)

External library behaviour (serde parsing of arbitrary strings, the
neo4rs driver, reqwest, pretty-printing) is modelled by oracle function
parameters; everything the repository itself computes is embedded as
executable Lean definitions.
-/

namespace AgentAi

/-- JSON values, the model of serde_json Value.  JSON numbers that the
claims touch are integers (request ids, error codes), so numbers are
modelled as Int. -/
inductive Json where
  | null : Json
  | bool (b : Bool) : Json
  | num (n : Int) : Json
  | str (s : String) : Json
  | arr (xs : List Json) : Json
  | obj (fields : List (String × Json)) : Json

/-- Rust str::trim: drop leading and trailing whitespace.  Written by
structural recursion over the character list so that concrete inputs
evaluate. -/
def strTrim (s : String) : String :=
  String.mk (((s.data.dropWhile Char.isWhitespace).reverse.dropWhile
    Char.isWhitespace).reverse)

/-- First-match lookup of a key in a JSON object field list. -/
def jsonLookup : List (String × Json) → String → Option Json
  | [], _ => none
  | (k, v) :: rest, key => if k = key then some v else jsonLookup rest key

/-- Value.get on an object (None on any other variant). -/
def Json.get : Json → String → Option Json
  | .obj fields, key => jsonLookup fields key
  | _, _ => none

/-- Extract a JSON string (serde as_str). -/
def Json.asStr : Json → Option String
  | .str s => some s
  | _ => none

/-! ## mcp-server/src/mcp/types.rs -/

/-- JsonRpcRequest from types.rs: jsonrpc, optional id, method, optional
params. -/
structure JsonRpcRequest where
  jsonrpc : String
  id : Option Json
  method : String
  params : Option Json

/-- JsonRpcError from types.rs. -/
structure JsonRpcError where
  code : Int
  message : String
  data : Option Json

/-- JsonRpcResponse from types.rs: result and error are each omitted
when absent. -/
structure JsonRpcResponse where
  jsonrpc : String
  id : Option Json
  result : Option Json
  error : Option JsonRpcError

/-- ContentBlock from types.rs: the tagged text variant. -/
inductive ContentBlock where
  | text (s : String) : ContentBlock

/-- ToolDefinition from types.rs (input_schema serialized under the
wire name inputSchema). -/
structure ToolDefinition where
  name : String
  description : String
  input_schema : Json

/-- ToolCallParams from types.rs: name required, arguments defaulting
to the empty map.  The argument map is modelled as an association
list. -/
structure ToolCallParams where
  name : String
  arguments : List (String × Json)

/-- PluginCallParams from plugin_params.rs: all three fields required. -/
structure PluginCallParams where
  name : String
  action : String
  args : List (String × Json)

/-- Plugin execution context from plugins/mod.rs.  The chrono timestamp
is an opaque instant, modelled as Nat. -/
structure Context where
  correlation_id : String
  timestamp : Nat
  parameters : List (String × Json)

/-- PluginResult from plugins/mod.rs.  Metric values are f64 in the
source; no claim inspects them, and they are carried opaquely. -/
structure PluginResult where
  success : Bool
  data : Json
  metrics : Option (List (String × Float))
  context_updates : Option (List (String × Json))

/-- McpServer.create_success_response: a response with the given id and
result, jsonrpc 2.0, no error. -/
def successResponse (id : Option Json) (result : Json) : JsonRpcResponse :=
  { jsonrpc := "2.0", id := id, result := some result, error := none }

/-- McpServer.create_error_response: a response with the given id and
error object, jsonrpc 2.0, no result. -/
def errorResponse (id : Option Json) (code : Int) (message : String)
    (data : Option Json) : JsonRpcResponse :=
  { jsonrpc := "2.0", id := id, result := none,
    error := some { code := code, message := message, data := data } }

/-! ## Serialization of results (serde Serialize impls from types.rs) -/

/-- Serde serialization of a ContentBlock: tag type = text, field text. -/
def encodeContentBlock : ContentBlock → Json
  | .text s => .obj [("type", .str "text"), ("text", .str s)]

/-- Serde serialization of ToolCallResult: a content array. -/
def encodeToolCallResult (content : List ContentBlock) : Json :=
  .obj [("content", .arr (content.map encodeContentBlock))]

/-- Serde serialization of a ToolDefinition (inputSchema on the wire). -/
def encodeToolDef (td : ToolDefinition) : Json :=
  .obj [("name", .str td.name), ("description", .str td.description),
        ("inputSchema", td.input_schema)]

/-- Serde serialization of ToolsListResult. -/
def encodeToolsListResult (tools : List ToolDefinition) : Json :=
  .obj [("tools", .arr (tools.map encodeToolDef))]

/-- The InitializeResult built by handle_initialize: protocol version
2024-11-05, tools capability with listChanged false, server info. -/
def encodeInitResult (version : String) : Json :=
  .obj [("protocolVersion", .str "2024-11-05"),
        ("capabilities", .obj [("tools", .obj [("listChanged", .bool false)])]),
        ("serverInfo", .obj [("name", .str "ollama-n8n-mcp-server"),
                             ("version", .str version)])]

/-! ## Deserialization of request params (serde Deserialize impls) -/

/-- serde from_value of ToolCallParams: an object with a required
string field name and an optional object field arguments defaulting to
empty. -/
def decodeToolCallParams (v : Json) : Option ToolCallParams :=
  match v with
  | .obj fields =>
    match jsonLookup fields "name" with
    | some (.str n) =>
      match jsonLookup fields "arguments" with
      | none => some { name := n, arguments := [] }
      | some (.obj args) => some { name := n, arguments := args }
      | some _ => none
    | _ => none
  | _ => none

/-- serde from_value of PluginCallParams: object with required string
fields name and action and a required object field args. -/
def decodePluginCallParams (v : Json) : Option PluginCallParams :=
  match v with
  | .obj fields =>
    match jsonLookup fields "name", jsonLookup fields "action",
          jsonLookup fields "args" with
    | some (.str n), some (.str a), some (.obj args) =>
      some { name := n, action := a, args := args }
    | _, _, _ => none
  | _ => none

/-! ## Plugins and the registry as populated by McpServer.initialize -/

/-- The observable behaviour of one plugin execute call: external I/O,
modelled as a function from capability, context and parameters to a
result or an error message. -/
def ExecFn : Type :=
  String → Context → List (String × Json) → Except String PluginResult

/-- The four plugins registered by McpServer.initialize, each reduced
to its execute behaviour. -/
structure Plugins where
  system_info : ExecFn
  home_assistant : ExecFn
  http : ExecFn
  neo4j : ExecFn

/-- PluginRegistry.get_plugin over the registry contents after
McpServer.initialize: the four built-in plugins keyed by their name()
values. -/
def getPlugin (ps : Plugins) : String → Option ExecFn
  | "system_info" => some ps.system_info
  | "home_assistant" => some ps.home_assistant
  | "http" => some ps.http
  | "neo4j" => some ps.neo4j
  | _ => none

/-- PluginRegistry.list_plugins after McpServer.initialize.  The
HashMap iteration order is unspecified; a fixed representative order is
used (no claim depends on it). -/
def pluginNames : List String :=
  ["system_info", "home_assistant", "http", "neo4j"]

/-! ## McpServer.call_plugin_as_tool (mcp/mod.rs lines 81-141) -/

/-- The first match of call_plugin_as_tool (mcp/mod.rs lines 84-90):
tool name to plugin name. -/
def pluginNameFor : String → Except String String
  | "system_info" => .ok "system_info"
  | "homeassistant" => .ok "home_assistant"
  | "http_request" => .ok "http"
  | "neo4j_query" => .ok "neo4j"
  | name => .error ("Tool not found: " ++ name)

/-- The second match of call_plugin_as_tool (mcp/mod.rs lines 97-123):
tool name to the capability and mapped arguments.  Note the source has
no arm for the neo4j_query tool here, so that name falls through to the
catch-all Unknown tool error. -/
def capabilityFor (name : String) (args : List (String × Json)) :
    Except String (String × List (String × Json)) :=
  match name with
  | "system_info" =>
    -- the action argument is read for logging; the capability is constant
    .ok ("get_system_info", args)
  | "homeassistant" =>
    match (jsonLookup args "action").bind Json.asStr with
    | none => .error "action is required for homeassistant"
    | some action =>
      match action with
      | "get_states" => .ok ("get_states", args)
      | "get_state" => .ok ("get_state", args)
      | "call_service" => .ok ("call_service", args)
      | "get_services" => .ok ("get_services", args)
      | _ => .error ("Unknown homeassistant action: " ++ action)
  | "http_request" => .ok ("request", args)
  | _ => .error ("Unknown tool: " ++ name)

/-- McpServer.call_plugin_as_tool.  The pretty argument models
serde_json::to_string_pretty on a Value, which is infallible; now is
the chrono timestamp taken for the execution context. -/
def callPluginAsTool (pretty : Json → String) (ps : Plugins) (now : Nat)
    (name : String) (args : List (String × Json)) :
    Except String (List ContentBlock) :=
  match pluginNameFor name with
  | .error e => .error e
  | .ok plugin_name =>
    match getPlugin ps plugin_name with
    | none => .error ("Plugin not found: " ++ plugin_name)
    | some plugin =>
      match capabilityFor name args with
      | .error e => .error e
      | .ok capAndArgs =>
        -- the execution context built for the call (correlation id is
        -- the fixed tool_call sentinel)
        match plugin capAndArgs.1
            { correlation_id := "tool_call", timestamp := now,
              parameters := capAndArgs.2 } capAndArgs.2 with
        | .error e => .error ("Plugin execution failed: " ++ e)
        | .ok result => .ok [ContentBlock.text (pretty result.data)]

/-! ## The dispatcher (McpServer.handle_message and friends) -/

/-- The process-wide server state: the initialized atomic flag. -/
structure ServerState where
  initialized : Bool

/-- The collaborators of the dispatcher: the serde string parser, the
registered plugins, the tool registry contents, serialization oracles
for externally rendered values, and the per-call ambient data. -/
structure ServerEnv where
  /-- serde_json::from_str for JsonRpcRequest. -/
  parse : String → Option JsonRpcRequest
  plugins : Plugins
  /-- ToolRegistry.list_tools output. -/
  tools : List ToolDefinition
  /-- serde_json::to_string_pretty on a Value. -/
  pretty : Json → String
  /-- serde_json::json! serialization of a PluginResult (metric values
  are f64, rendered by the library). -/
  encodePluginResult : PluginResult → Json
  /-- The rendered serde error message for a params value that fails to
  deserialize as PluginCallParams. -/
  serdeErr : Json → String
  now : Nat
  /-- The random UUID generated for a plugins/call correlation id. -/
  uuid : String
  version : String

/-- McpServer.handle_initialize (mcp/mod.rs lines 243-272). -/
def handleInitRequest (env : ServerEnv) (st : ServerState)
    (request : JsonRpcRequest) : JsonRpcResponse × ServerState :=
  if st.initialized then
    (errorResponse request.id (-32002) "Server already initialized" none, st)
  else
    (successResponse request.id (encodeInitResult env.version),
     { st with initialized := true })

/-- McpServer.handle_tools_list. -/
def handleToolsList (env : ServerEnv) (request : JsonRpcRequest) :
    JsonRpcResponse :=
  successResponse request.id (encodeToolsListResult env.tools)

/-- McpServer.handle_tool_call (mcp/mod.rs lines 286-330). -/
def handleToolCall (env : ServerEnv) (request : JsonRpcRequest) :
    JsonRpcResponse :=
  match request.params with
  | none => errorResponse request.id (-32602) "Missing params" none
  | some value =>
    match decodeToolCallParams value with
    | none => errorResponse request.id (-32602) "Invalid params" none
    | some params =>
      match callPluginAsTool env.pretty env.plugins env.now
          params.name params.arguments with
      | .ok result =>
        successResponse request.id (encodeToolCallResult result)
      | .error e =>
        errorResponse request.id (-1) "Tool execution failed"
          (some (.str e))

/-- McpServer.handle_plugins_list. -/
def handlePluginsList (request : JsonRpcRequest) : JsonRpcResponse :=
  successResponse request.id
    (.obj [("plugins", .arr (pluginNames.map Json.str))])

/-- McpServer.handle_plugins_call (mcp/mod.rs lines 155-198).  The
params default to Null when absent before deserialization. -/
def handlePluginsCall (env : ServerEnv) (request : JsonRpcRequest) :
    JsonRpcResponse :=
  let paramsValue := request.params.getD .null
  match decodePluginCallParams paramsValue with
  | none =>
    errorResponse request.id (-32602) "Invalid params"
      (some (.str (env.serdeErr paramsValue)))
  | some params =>
    match getPlugin env.plugins params.name with
    | none => errorResponse request.id (-32601) "Plugin not found" none
    | some plugin =>
      let ctx : Context :=
        { correlation_id := env.uuid, timestamp := env.now,
          parameters := params.args }
      match plugin params.action ctx params.args with
      | .ok result =>
        successResponse request.id (env.encodePluginResult result)
      | .error e =>
        errorResponse request.id (-32603) "Plugin execution failed"
          (some (.str e))

/-- The post-parse portion of McpServer.handle_message: the
initialization gate followed by the method table. -/
def dispatch (env : ServerEnv) (st : ServerState)
    (request : JsonRpcRequest) : JsonRpcResponse × ServerState :=
  if !st.initialized && request.method ≠ "initialize" then
    (errorResponse request.id (-32002) "Server not initialized" none, st)
  else
    match request.method with
    | "initialize" => handleInitRequest env st request
    | "tools/list" => (handleToolsList env request, st)
    | "tools/call" => (handleToolCall env request, st)
    | "plugins/list" => (handlePluginsList request, st)
    | "plugins/call" => (handlePluginsCall env request, st)
    | _ => (errorResponse request.id (-32601) "Method not found" none, st)

/-- McpServer.handle_message (mcp/mod.rs lines 200-241): trim, return
empty output on empty input (modelled as none), emit a parse error on
unparseable input, otherwise dispatch. -/
def handleMessage (env : ServerEnv) (st : ServerState) (message : String) :
    Option JsonRpcResponse × ServerState :=
  let message := strTrim message
  if message.isEmpty then (none, st)
  else
    match env.parse message with
    | none => (some (errorResponse none (-32700) "Parse error" none), st)
    | some request =>
      let (resp, st') := dispatch env st request
      (some resp, st')

/-! ## The stdio transport loop body (main.rs run_stdio_mode lines 71-98) -/

/-- One iteration of run_stdio_mode on a successfully read line: the
dispatcher output (serialized by the ser oracle; the empty output
serializes to the empty string) followed by an unconditional newline. -/
def stdioWrite (ser : JsonRpcResponse → String) (env : ServerEnv)
    (st : ServerState) (line : String) : String × ServerState :=
  let (resp, st') := handleMessage env st line
  ((match resp with | none => "" | some r => ser r) ++ "\n", st')

/-! ## PluginRegistry.shutdown (mcp/plugin_registry.rs lines 37-50) -/

/-- A registered plugin as seen by shutdown: its name and the outcome
its shutdown hook produces when invoked. -/
structure PluginHandle where
  name : String
  shutdownResult : Except String Unit

/-- The per-plugin error messages accumulated by the shutdown loop, in
registry iteration order. -/
def shutdownErrors (ps : List PluginHandle) : List String :=
  ps.filterMap fun p =>
    match p.shutdownResult with
    | .ok _ => none
    | .error e =>
      some ("Error shutting down plugin " ++ p.name ++ ": " ++ e)

/-- PluginRegistry.shutdown: invoke every hook, collect the error
messages, succeed when none failed and otherwise return the
newline-joined aggregate. -/
def registryShutdown (ps : List PluginHandle) : Except String Unit :=
  let errors := shutdownErrors ps
  if errors.isEmpty then .ok ()
  else .error (String.intercalate "\n" errors)

/-! ## Neo4jContext.connect (context/neo4j.rs lines 55-104) -/

/-- Observable events of the connection loop. -/
inductive ConnEv where
  | attempt (i : Nat) : ConnEv
  | sleep (secs : Nat) : ConnEv

/-- The loop body of Neo4jContext.connect, with fuel equal to the
remaining retries.  The outcome oracle gives the result of the i-th
Graph::new call; schema gives the result of init_schema after a
successful connection.  Returns the overall result and the event
trace. -/
def connectFrom (outcome : Nat → Except String Unit)
    (schema : Except String Unit) :
    Nat → Nat → Option String → Except String Unit × List ConnEv
  | 0, _, lastError =>
    (match lastError with
     | some e => .error e
     | none => .error "Failed to connect to Neo4j after all retries", [])
  | retries + 1, i, _ =>
    match outcome i with
    | .ok _ =>
      (match schema with
       | .ok _ => .ok ()
       | .error e => .error e,
       [ConnEv.attempt i])
    | .error e =>
      let rest := connectFrom outcome schema retries (i + 1) (some e)
      (rest.1,
       ConnEv.attempt i ::
         (if retries > 0 then [ConnEv.sleep 2] else []) ++ rest.2)

/-- Neo4jContext.connect: five retries, starting with no recorded
error. -/
def connectNeo4j (outcome : Nat → Except String Unit)
    (schema : Except String Unit) : Except String Unit × List ConnEv :=
  connectFrom outcome schema 5 0 none

/-- The number of connection attempts in a trace. -/
def attemptCount (evs : List ConnEv) : Nat :=
  (evs.filter fun ev => match ev with
    | ConnEv.attempt _ => true
    | _ => false).length

/-- Each attempt event is immediately followed, if anything follows at
all, by a two-second sleep event. -/
def attemptThenSleep (a b : ConnEv) : Prop :=
  ∀ i, a = ConnEv.attempt i → b = ConnEv.sleep 2

/-! ## Bridge: McpClient request-id counter (mcp_client.rs lines 49-62)

The counter is an i32 behind a mutex.  Machine arithmetic is modelled
on Int with an explicit two's-complement wrap at 32 bits, the
defined overflow behaviour of the release-profile build. -/

/-- Two's-complement wrap into the i32 range. -/
def wrap32 (x : Int) : Int := (x + 2 ^ 31) % 2 ^ 32 - 2 ^ 31

/-- McpClient::new starts the request-id counter at 1. -/
def initialRequestId : Int := 1

/-- McpClient.get_next_id: return the current counter value and store
its successor. -/
def getNextId (st : Int) : Int × Int := (st, wrap32 (st + 1))

/-- The counter value after n outbound requests. -/
def counterAfter : Nat → Int
  | 0 => initialRequestId
  | n + 1 => (getNextId (counterAfter n)).2

/-- The JSON-RPC id used by the n-th outbound request (n counted from
1). -/
def idAt (n : Nat) : Int := (getNextId (counterAfter (n - 1))).1

/-! ## Bridge: tool-call handler (lib.rs call_tool_handler lines 141-169) -/

/-- The bridge ToolCallResponse wire shape. -/
structure ToolCallResponse where
  success : Bool
  content : Option (List ContentBlock)
  error : Option String

/-- The error cases of McpClient.call_tool, with the message parts each
case carries.  The network case covers reqwest send and body-read
failures, whose rendered text comes from the library. -/
inductive McpCallError where
  | network (msg : String) : McpCallError
  | httpStatus (status : String) (body : String) : McpCallError
  | envelopeParse (err : String) (body : String) : McpCallError
  | contentParse (err : String) : McpCallError
  | noResult : McpCallError

/-- The anyhow message rendered for each McpClient.call_tool failure,
following the format strings in mcp_client.rs. -/
def McpCallError.render : McpCallError → String
  | .network msg => msg
  | .httpStatus status body => "MCP server error: " ++ status ++ " - " ++ body
  | .envelopeParse err body =>
    "JSON-RPC parse error: " ++ err ++ " - Response: " ++ body
  | .contentParse err => "Invalid tools/call response format: " ++ err
  | .noResult => "Invalid tools/call response format: no result field"

/-- Whether the externally rendered part of a failure is non-empty;
true by construction for every in-repo message. -/
def McpCallError.networkMsgNonempty : McpCallError → Prop
  | .network msg => msg ≠ ""
  | _ => True

/-- call_tool_handler: the HTTP status and body produced from the
outcome of McpClient.call_tool.  Both branches return an Ok Json body,
which axum serves with status 200. -/
def callToolHandler (r : Except McpCallError (List ContentBlock)) :
    Nat × ToolCallResponse :=
  match r with
  | .ok content =>
    (200, { success := true, content := some content, error := none })
  | .error e =>
    (200, { success := false, content := none, error := some e.render })

/-! ## Bridge: dual-shape tools/list parsing (mcp_client.rs lines 121-193) -/

/-- The bridge JsonRpcResponse (mcp_client.rs): jsonrpc string, an i32
id, optional result and error. -/
structure BridgeResponse where
  jsonrpc : String
  id : Int
  result : Option Json
  error : Option JsonRpcError

/-- Whether an integer is representable as an i32. -/
def inI32 (n : Int) : Prop := -(2 ^ 31) ≤ n ∧ n < 2 ^ 31

/-- Decidable i32 range check used by the serde number decoders. -/
def isI32 (n : Int) : Bool := decide (-(2 ^ 31) ≤ n ∧ n < 2 ^ 31)

/-- serde deserialization of the bridge JsonRpcError. -/
def decodeBridgeError (v : Json) : Option JsonRpcError :=
  match v with
  | .obj fields =>
    match jsonLookup fields "code", jsonLookup fields "message" with
    | some (.num c), some (.str m) =>
      if isI32 c then
        some { code := c, message := m, data := jsonLookup fields "data" }
      else none
    | _, _ => none
  | _ => none

/-- serde deserialization of the bridge JsonRpcResponse: jsonrpc and an
i32 id are required; result is any optional value; error, when present,
must be a well-formed error object. -/
def decodeBridgeResponse (v : Json) : Option BridgeResponse :=
  match v with
  | .obj fields =>
    match jsonLookup fields "jsonrpc", jsonLookup fields "id" with
    | some (.str j), some (.num i) =>
      if isI32 i then
        match jsonLookup fields "error" with
        | none =>
          some { jsonrpc := j, id := i, result := jsonLookup fields "result",
                 error := none }
        | some ev =>
          match decodeBridgeError ev with
          | some err =>
            some { jsonrpc := j, id := i,
                   result := jsonLookup fields "result", error := some err }
          | none => none
      else none
    | _, _ => none
  | _ => none

/-- serde deserialization of one bridge ToolDefinition: required name
and description strings and a required inputSchema value; unknown
fields are ignored. -/
def decodeToolDef (v : Json) : Option ToolDefinition :=
  match v with
  | .obj fields =>
    match jsonLookup fields "name", jsonLookup fields "description",
          jsonLookup fields "inputSchema" with
    | some (.str n), some (.str d), some schema =>
      some { name := n, description := d, input_schema := schema }
    | _, _, _ => none
  | _ => none

/-- serde deserialization of a sequence of ToolDefinition values:
every element must decode. -/
def decodeToolDefList : List Json → Option (List ToolDefinition)
  | [] => some []
  | v :: rest =>
    match decodeToolDef v, decodeToolDefList rest with
    | some td, some tds => some (td :: tds)
    | _, _ => none

/-- serde deserialization of a Vec of ToolDefinition. -/
def decodeToolDefs (v : Json) : Option (List ToolDefinition) :=
  match v with
  | .arr xs => decodeToolDefList xs
  | _ => none

/-- The tools/list branch of McpClient.execute_mcp_command on a
successfully received 2xx body: if the body is an object with a tools
field, synthesize a response whose result is that field; otherwise
parse the body as a JSON-RPC envelope. -/
def executeToolsList (body : Json) (reqId : Int) :
    Except String BridgeResponse :=
  match body.get "tools" with
  | some tools =>
    .ok { jsonrpc := "2.0", id := reqId, result := some tools, error := none }
  | none =>
    match decodeBridgeResponse body with
    | some resp => .ok resp
    | none => .error "JSON-RPC parse error"

/-- McpClient.list_tools on the response from execute_mcp_command: try
the result as a bare ToolDefinition array, then as an object carrying a
tools array, otherwise report a protocol error. -/
def listToolsFromResponse (resp : BridgeResponse) :
    Except String (List ToolDefinition) :=
  match resp.result with
  | some result =>
    match decodeToolDefs result with
    | some tools => .ok tools
    | none =>
      match result.get "tools" with
      | some toolsObj =>
        match decodeToolDefs toolsObj with
        | some tools => .ok tools
        | none => .error "Invalid tools/list response format"
      | none => .error "Invalid tools/list response format"
  | none => .error "Invalid tools/list response format"

/-- The full bridge tools/list parsing pipeline on an upstream 2xx
body. -/
def listToolsPipeline (body : Json) (reqId : Int) :
    Except String (List ToolDefinition) :=
  match executeToolsList body reqId with
  | .ok resp => listToolsFromResponse resp
  | .error e => .error e

/-- The bridge ToolInfo wire shape served by GET /tools. -/
structure ToolInfo where
  name : String
  description : String
  input_schema : Json

/-- list_tools_handler (lib.rs lines 122-139): on pipeline success the
body is the ToolInfo list; on failure HTTP 500. -/
def listToolsHandlerBody (body : Json) (reqId : Int) :
    Except Nat (List ToolInfo) :=
  match listToolsPipeline body reqId with
  | .ok tools =>
    .ok (tools.map fun t =>
      { name := t.name, description := t.description,
        input_schema := t.input_schema })
  | .error _ => .error 500

/-- The bare response shape for a tool catalogue. -/
def bareToolsShape (ts : List ToolDefinition) : Json :=
  .obj [("tools", .arr (ts.map encodeToolDef))]

/-- The JSON-RPC envelope response shape for the same catalogue. -/
def envelopeToolsShape (id : Int) (ts : List ToolDefinition) : Json :=
  .obj [("jsonrpc", .str "2.0"), ("id", .num id),
        ("result", .obj [("tools", .arr (ts.map encodeToolDef))])]

/-! ## Concrete instances used by witnesses and counterexamples -/

/-- A concrete plugin behaviour that always fails. -/
def demoExec : ExecFn := fun _ _ _ => .error "demo failure"

/-- A concrete plugin behaviour that always succeeds with a fixed
payload. -/
def demoOkExec : ExecFn := fun _ _ _ =>
  .ok { success := true, data := .obj [("cpu_usage", .num 1)],
        metrics := none, context_updates := none }

/-- A concrete server environment for evaluating the dispatcher at
specific inputs.  Its parser rejects every input, consistent with serde
on the inputs at which it is used. -/
def demoEnv : ServerEnv :=
  { parse := fun _ => none,
    plugins := ⟨demoOkExec, demoExec, demoExec, demoExec⟩,
    tools := [],
    pretty := fun _ => "pretty",
    encodePluginResult := fun _ => .null,
    serdeErr := fun _ => "serde error",
    now := 0,
    uuid := "00000000-0000-0000-0000-000000000000",
    version := "0.1.0" }

/-- A concrete response serializer for the stdio model. -/
def demoSer : JsonRpcResponse → String := fun _ => "serialized"

/-- A concrete tools/list request with id 7. -/
def demoListReq : JsonRpcRequest :=
  { jsonrpc := "2.0", id := some (.num 7), method := "tools/list",
    params := none }

/-- A concrete initialize request with id 2. -/
def demoInitReq : JsonRpcRequest :=
  { jsonrpc := "2.0", id := some (.num 2), method := "initialize",
    params := none }

/-! ## C1 -/

/-- C1: the claim says a tools/call for the neo4j_query tool invokes
the neo4j plugin's query capability and returns its result data.  The
code instead dead-ends: call_plugin_as_tool maps neo4j_query to the
neo4j plugin and fetches it, but its capability match has no
neo4j_query arm, so every such call returns the catch-all Unknown tool
error without invoking any plugin, and the dispatcher wraps it in a
code -1 Tool execution failed response.  This theorem evaluates the
embedded code at the failing input, for every plugin behaviour and
argument map. -/
theorem neo4j_query_never_reaches_plugin (pretty : Json → String)
    (ps : Plugins) (now : Nat) (args : List (String × Json))
    (env : ServerEnv) (id : Option Json) :
    callPluginAsTool pretty ps now "neo4j_query" args =
      .error "Unknown tool: neo4j_query" ∧
    handleToolCall env
      { jsonrpc := "2.0", id := id, method := "tools/call",
        params := some (.obj [("name", .str "neo4j_query"),
                              ("arguments", .obj args)]) } =
      errorResponse id (-1) "Tool execution failed"
        (some (.str "Unknown tool: neo4j_query")) :=
  ⟨rfl, rfl⟩

/-! ## C2 -/

/-- C2: the initialization gate.  While the flag is unset, every
non-initialize request is answered with error -32002 Server not
initialized; an initialize request while the flag is set is answered
with -32002 Server already initialized; a successful initialize sets
the flag. -/
theorem initialization_gate (env : ServerEnv) (st : ServerState)
    (req : JsonRpcRequest) :
    (st.initialized = false → req.method ≠ "initialize" →
      dispatch env st req =
        (errorResponse req.id (-32002) "Server not initialized" none, st)) ∧
    (st.initialized = true → req.method = "initialize" →
      dispatch env st req =
        (errorResponse req.id (-32002) "Server already initialized" none,
         st)) ∧
    (st.initialized = false → req.method = "initialize" →
      dispatch env st req =
        (successResponse req.id (encodeInitResult env.version),
         { initialized := true })) := by
  obtain ⟨b⟩ := st
  refine ⟨?_, ?_, ?_⟩
  · intro hb hm
    simp only [ServerState.initialized] at hb
    subst hb
    simp [dispatch, hm]
  · intro hb hm
    simp only [ServerState.initialized] at hb
    subst hb
    simp [dispatch, hm, handleInitRequest]
  · intro hb hm
    simp only [ServerState.initialized] at hb
    subst hb
    simp [dispatch, hm, handleInitRequest]

/-- Witness for C2: the gate evaluated at concrete requests in both
flag states. -/
theorem initialization_gate_witness :
    dispatch demoEnv ⟨false⟩ demoListReq =
      (errorResponse (some (.num 7)) (-32002) "Server not initialized" none,
       ⟨false⟩) ∧
    dispatch demoEnv ⟨true⟩ demoInitReq =
      (errorResponse (some (.num 2)) (-32002) "Server already initialized"
        none, ⟨true⟩) ∧
    dispatch demoEnv ⟨false⟩ demoInitReq =
      (successResponse (some (.num 2)) (encodeInitResult "0.1.0"),
       ⟨true⟩) :=
  ⟨(initialization_gate demoEnv ⟨false⟩ demoListReq).1 rfl (by decide),
   (initialization_gate demoEnv ⟨true⟩ demoInitReq).2.1 rfl rfl,
   (initialization_gate demoEnv ⟨false⟩ demoInitReq).2.2 rfl rfl⟩

/-! ## C3 -/

/-- Every branch of the post-parse dispatcher echoes the request id. -/
theorem dispatch_id_echo (env : ServerEnv) (st : ServerState)
    (req : JsonRpcRequest) : ((dispatch env st req).1).id = req.id := by
  unfold dispatch
  split
  · rfl
  · split
    · unfold handleInitRequest; split <;> rfl
    · rfl
    · unfold handleToolCall
      split
      · rfl
      · split
        · rfl
        · split <;> rfl
    · rfl
    · simp only [handlePluginsCall]
      split
      · rfl
      · split
        · rfl
        · split <;> rfl
    · rfl

/-- C3 (amended): for every input whose trimmed form is non-empty and
parses as a JSON-RPC request with id x, the response carries id x; for
every input whose trimmed form is non-empty and fails to parse, the
response carries id null with error -32700 Parse error.  (As stated,
the claim fails for whitespace-only inputs, which are non-empty yet
produce no response at all.) -/
theorem request_id_echo (env : ServerEnv) (st : ServerState)
    (msg : String) :
    (∀ req, strTrim msg ≠ "" → env.parse (strTrim msg) = some req →
      ∃ resp, (handleMessage env st msg).1 = some resp ∧
        resp.id = req.id) ∧
    (strTrim msg ≠ "" → env.parse (strTrim msg) = none →
      (handleMessage env st msg).1 =
        some (errorResponse none (-32700) "Parse error" none)) := by
  have hne : strTrim msg ≠ "" → (strTrim msg).isEmpty = false := by
    intro h
    cases he : (strTrim msg).isEmpty
    · rfl
    · exact absurd ((String.isEmpty_iff (strTrim msg)).mp he) h
  constructor
  · intro req h hp
    refine ⟨(dispatch env st req).1, ?_, dispatch_id_echo env st req⟩
    simp [handleMessage, hne h, hp]
  · intro h hp
    simp [handleMessage, hne h, hp]

/-- Counterexample to C3 as stated: the single-space input is non-empty
and does not parse as a JSON-RPC request, yet the dispatcher produces
no response at all instead of a -32700 Parse error response with id
null. -/
theorem request_id_echo_counterexample :
    (" " : String) ≠ "" ∧
    demoEnv.parse " " = none ∧
    (handleMessage demoEnv ⟨true⟩ " ").1 = none ∧
    ¬ ((handleMessage demoEnv ⟨true⟩ " ").1 =
        some (errorResponse none (-32700) "Parse error" none)) := by
  refine ⟨by decide, rfl, rfl, fun h => ?_⟩
  exact Option.noConfusion h

/-- Witness for C3 (amended), at a concrete parsed request and a
concrete parse failure. -/
theorem request_id_echo_witness :
    (∃ resp,
      (handleMessage
        { demoEnv with parse := fun _ => some demoListReq } ⟨true⟩
        "x").1 = some resp ∧ resp.id = some (.num 7)) ∧
    (handleMessage demoEnv ⟨true⟩ "not json").1 =
      some (errorResponse none (-32700) "Parse error" none) :=
  ⟨(request_id_echo { demoEnv with parse := fun _ => some demoListReq }
      ⟨true⟩ "x").1 demoListReq (by decide) rfl,
   (request_id_echo demoEnv ⟨true⟩ "not json").2 (by decide) rfl⟩

/-! ## C7 -/

/-- C7 (amended): the dispatcher trims surrounding whitespace and an
empty or whitespace-only input produces empty output; on the stdio
transport a blank input line produces no JSON-RPC response, but the
loop still writes the unconditional line terminator, so one blank
output line is emitted for it. -/
theorem blank_input_handling (env : ServerEnv) (st : ServerState)
    (msg line : String) (ser : JsonRpcResponse → String) :
    (strTrim msg = "" → handleMessage env st msg = (none, st)) ∧
    (strTrim line = "" → stdioWrite ser env st line = ("\n", st)) := by
  have hemp : ("" : String).isEmpty = true := rfl
  constructor
  · intro h
    simp [handleMessage, h, hemp]
  · intro h
    simp [stdioWrite, handleMessage, h, hemp]

/-- Counterexample to C7 as stated: reading the blank line consisting
of a space and a newline, the stdio loop emits a newline byte — a blank
response line — rather than emitting nothing. -/
theorem blank_input_counterexample :
    (stdioWrite demoSer demoEnv ⟨true⟩ " \n").1 = "\n" ∧
    ("\n" : String) ≠ "" := by
  exact ⟨rfl, by decide⟩

/-- Witness for C7 (amended) at concrete whitespace inputs. -/
theorem blank_input_handling_witness :
    handleMessage demoEnv ⟨true⟩ "  " = (none, ⟨true⟩) ∧
    stdioWrite demoSer demoEnv ⟨true⟩ "\t\n" = ("\n", ⟨true⟩) :=
  ⟨(blank_input_handling demoEnv ⟨true⟩ "  " "" demoSer).1 (by decide),
   (blank_input_handling demoEnv ⟨true⟩ "" "\t\n" demoSer).2 (by decide)⟩

/-! ## C4 -/

/-- A string append is non-empty when its left part is. -/
theorem append_ne_empty_left :
    ∀ (s t : String), s ≠ "" → s ++ t ≠ ""
  | ⟨l⟩, ⟨m⟩, h, he => by
    apply h
    have hd : l ++ m = [] := congrArg String.data he
    have : l = [] := (List.append_eq_nil.mp hd).1
    simp [this]

/-- Every in-repo failure message of McpClient.call_tool is non-empty;
for the network case this needs the library-rendered text to be
non-empty. -/
theorem render_ne_empty (e : McpCallError) (h : e.networkMsgNonempty) :
    e.render ≠ "" := by
  cases e with
  | network msg => exact h
  | httpStatus status body =>
    apply append_ne_empty_left
    apply append_ne_empty_left
    apply append_ne_empty_left
    decide
  | envelopeParse err body =>
    apply append_ne_empty_left
    apply append_ne_empty_left
    apply append_ne_empty_left
    decide
  | contentParse err =>
    apply append_ne_empty_left
    decide
  | noResult => decide

/-- C4: the bridge tool-call handler always answers with a successful
HTTP status; a failed underlying tool call yields the body success
false, content null, error a non-empty message, and a successful one
yields success true, the content blocks, error null — plugin failures
are carried in-band, never as transport errors. -/
theorem tool_call_in_band (r : Except McpCallError (List ContentBlock)) :
    (callToolHandler r).1 = 200 ∧
    (∀ e, r = .error e → e.networkMsgNonempty →
      (callToolHandler r).2 =
        { success := false, content := none, error := some e.render } ∧
      e.render ≠ "") ∧
    (∀ c, r = .ok c →
      (callToolHandler r).2 =
        { success := true, content := some c, error := none }) := by
  refine ⟨?_, ?_, ?_⟩
  · cases r <;> rfl
  · intro e he hx
    subst he
    exact ⟨rfl, render_ne_empty e hx⟩
  · intro c hc
    subst hc
    rfl

/-- Witness for C4 at a concrete failure (the no-result case produced
when the server reports a plugin failure in the error channel) and a
concrete success. -/
theorem tool_call_in_band_witness :
    (callToolHandler (.error .noResult)).2 =
      { success := false, content := none,
        error := some "Invalid tools/call response format: no result field" } ∧
    McpCallError.noResult.render ≠ "" ∧
    (callToolHandler (.ok [ContentBlock.text "ok"])).2 =
      { success := true, content := some [ContentBlock.text "ok"],
        error := none } :=
  ⟨((tool_call_in_band (.error .noResult)).2.1 .noResult rfl trivial).1,
   ((tool_call_in_band (.error .noResult)).2.1 .noResult rfl trivial).2,
   (tool_call_in_band (.ok [ContentBlock.text "ok"])).2.2
     [ContentBlock.text "ok"] rfl⟩

/-! ## C6 -/

/-- Wrapping distributes over a wrapped left summand. -/
theorem wrap32_add_left (a b : Int) :
    wrap32 (wrap32 a + b) = wrap32 (a + b) := by
  unfold wrap32
  omega

/-- Wrapping fixes every value already in the i32 range. -/
theorem wrap32_eq_self (x : Int) (h1 : -(2 ^ 31) ≤ x) (h2 : x < 2 ^ 31) :
    wrap32 x = x := by
  unfold wrap32
  omega

/-- Closed form of the bridge request-id counter state. -/
theorem counterAfter_eq (n : Nat) :
    counterAfter n = wrap32 (1 + (n : Int)) := by
  induction n with
  | zero =>
    show initialRequestId = wrap32 1
    unfold initialRequestId wrap32
    norm_num
  | succ k ih =>
    show (getNextId (counterAfter k)).2 = _
    rw [ih]
    show wrap32 (wrap32 (1 + (k : Int)) + 1) = _
    rw [wrap32_add_left]
    push_cast
    ring_nf

/-- Closed form of the id used by the n-th outbound request. -/
theorem idAt_eq (n : Nat) (h : 1 ≤ n) : idAt n = wrap32 (n : Int) := by
  unfold idAt getNextId
  rw [counterAfter_eq]
  have : ((n - 1 : Nat) : Int) = (n : Int) - 1 := by omega
  rw [this]
  ring_nf

/-- C6 (amended): for the first 2^31 - 1 outbound requests the n-th
request carries id n and the ids are strictly increasing; the i32
counter then wraps, so the claim does not extend to longer sequences. -/
theorem request_id_sequence (n : Nat) (h1 : 1 ≤ n)
    (h2 : (n : Int) < 2 ^ 31) :
    idAt n = n ∧ ∀ m, 1 ≤ m → m < n → idAt m < idAt n := by
  have hn : idAt n = n := by
    rw [idAt_eq n h1]
    exact wrap32_eq_self _ (by omega) h2
  refine ⟨hn, fun m hm1 hm2 => ?_⟩
  have hmn : (m : Int) < (n : Int) := by exact_mod_cast hm2
  have hm : idAt m = m := by
    rw [idAt_eq m hm1]
    exact wrap32_eq_self _ (by omega) (by omega)
  rw [hm, hn]
  exact hmn

/-- Counterexample to C6 as stated: at the 2^31-th outbound request the
i32 counter wraps, the id drops to -2^31 instead of 2^31, and the id
sequence is no longer strictly increasing. -/
theorem request_id_sequence_counterexample :
    idAt 2147483648 = -2147483648 ∧
    idAt 2147483648 ≠ 2147483648 ∧
    idAt 2147483647 = 2147483647 ∧
    ¬ (idAt 2147483647 < idAt 2147483648) := by
  have h1 : idAt 2147483648 = -2147483648 := by
    rw [idAt_eq 2147483648 (by norm_num)]
    decide
  have h2 : idAt 2147483647 = 2147483647 := by
    rw [idAt_eq 2147483647 (by norm_num)]
    decide
  refine ⟨h1, by rw [h1]; decide, h2, by rw [h1, h2]; decide⟩

/-- Witness for C6 (amended) at the third request. -/
theorem request_id_sequence_witness :
    idAt 3 = 3 ∧ idAt 2 < idAt 3 :=
  ⟨(request_id_sequence 3 (by norm_num) (by norm_num)).1,
   (request_id_sequence 3 (by norm_num) (by norm_num)).2 2 (by norm_num)
     (by norm_num)⟩

/-! ## C8 -/

/-- The message recorded for one failing plugin shutdown. -/
def shutdownMsg (p : PluginHandle) (e : String) : String :=
  "Error shutting down plugin " ++ p.name ++ ": " ++ e

/-- C8: registry shutdown visits every registered plugin regardless of
other failures, succeeds exactly when no shutdown hook fails, and
otherwise returns a single error joining every per-plugin failure
description. -/
theorem registry_shutdown_aggregates (ps : List PluginHandle) :
    (registryShutdown ps = .ok () ↔
      ∀ p ∈ ps, p.shutdownResult = .ok ()) ∧
    (∀ m, registryShutdown ps = .error m →
      m = String.intercalate "\n" (shutdownErrors ps) ∧
      ∀ p ∈ ps, ∀ e, p.shutdownResult = .error e →
        shutdownMsg p e ∈ shutdownErrors ps) := by
  have herrs : shutdownErrors ps = [] ↔
      ∀ p ∈ ps, p.shutdownResult = .ok () := by
    unfold shutdownErrors
    rw [List.filterMap_eq_nil_iff]
    constructor
    · intro h p hp
      have := h p hp
      revert this
      cases p.shutdownResult with
      | ok u => cases u; intro; rfl
      | error e => intro hh; simp at hh
    · intro h p hp
      rw [h p hp]
  constructor
  · unfold registryShutdown
    constructor
    · intro h
      rw [← herrs]
      by_contra hne
      rw [if_neg (by simpa [List.isEmpty_iff] using hne)] at h
      exact Except.noConfusion h
    · intro h
      rw [if_pos (by simpa [List.isEmpty_iff] using herrs.mpr h)]
  · intro m hm
    constructor
    · unfold registryShutdown at hm
      by_cases hnil : shutdownErrors ps = []
      · rw [if_pos (by simpa [List.isEmpty_iff] using hnil)] at hm
        exact Except.noConfusion hm
      · rw [if_neg (by simpa [List.isEmpty_iff] using hnil)] at hm
        injection hm with h
        exact h.symm
    · intro p hp e he
      unfold shutdownErrors
      rw [List.mem_filterMap]
      exact ⟨p, hp, by rw [he]; rfl⟩

/-- Witness for C8 at a concrete registry with one succeeding and two
failing plugins. -/
theorem registry_shutdown_aggregates_witness :
    registryShutdown
      [⟨"plugin1", .ok ()⟩, ⟨"plugin2", .error "boom"⟩,
       ⟨"plugin3", .error "crash"⟩] =
      .error ("Error shutting down plugin plugin2: boom\n" ++
        "Error shutting down plugin plugin3: crash") ∧
    shutdownMsg ⟨"plugin2", .error "boom"⟩ "boom" ∈
      shutdownErrors
        [⟨"plugin1", .ok ()⟩, ⟨"plugin2", .error "boom"⟩,
         ⟨"plugin3", .error "crash"⟩] := by
  have h := (registry_shutdown_aggregates
    [⟨"plugin1", .ok ()⟩, ⟨"plugin2", .error "boom"⟩,
     ⟨"plugin3", .error "crash"⟩]).2
  refine ⟨rfl, (h _ rfl).2 ⟨"plugin2", .error "boom"⟩ (by simp) "boom" rfl⟩

/-! ## C5 -/

/-- Decoding inverts encoding for one tool definition. -/
theorem decodeToolDef_encode (td : ToolDefinition) :
    decodeToolDef (encodeToolDef td) = some td := rfl

/-- Decoding inverts encoding for a tool-definition list. -/
theorem decodeToolDefList_encode (ts : List ToolDefinition) :
    decodeToolDefList (ts.map encodeToolDef) = some ts := by
  induction ts with
  | nil => rfl
  | cons td rest ih => simp [decodeToolDefList, decodeToolDef_encode, ih]

/-- Decoding a Vec of ToolDefinition from its encoded array. -/
theorem decodeToolDefs_encode (ts : List ToolDefinition) :
    decodeToolDefs (.arr (ts.map encodeToolDef)) = some ts := by
  unfold decodeToolDefs
  exact decodeToolDefList_encode ts

/-- C5: the bridge parses the bare object shape and the JSON-RPC
envelope shape carrying the same tool definitions to the same tool
list, so the GET /tools body is identical in both cases. -/
theorem dual_shape_tools_list (ts : List ToolDefinition)
    (id reqA reqB : Int) (h : inI32 id) :
    listToolsPipeline (bareToolsShape ts) reqA = .ok ts ∧
    listToolsPipeline (envelopeToolsShape id ts) reqB = .ok ts ∧
    listToolsHandlerBody (bareToolsShape ts) reqA =
      listToolsHandlerBody (envelopeToolsShape id ts) reqB := by
  have hI : isI32 id = true := decide_eq_true h
  have hbare : listToolsPipeline (bareToolsShape ts) reqA = .ok ts := by
    simp [listToolsPipeline, executeToolsList, bareToolsShape, Json.get,
      jsonLookup, listToolsFromResponse, decodeToolDefs_encode]
  have henv : listToolsPipeline (envelopeToolsShape id ts) reqB = .ok ts := by
    simp [listToolsPipeline, executeToolsList, envelopeToolsShape, Json.get,
      jsonLookup, decodeBridgeResponse, hI, listToolsFromResponse,
      decodeToolDefs, decodeToolDefList_encode]
  refine ⟨hbare, henv, ?_⟩
  simp [listToolsHandlerBody, hbare, henv]

/-- Witness for C5 at a concrete one-tool catalogue and envelope id 1. -/
theorem dual_shape_tools_list_witness :
    listToolsPipeline
      (bareToolsShape [⟨"system_info", "demo", .obj []⟩]) 1 =
      .ok [⟨"system_info", "demo", .obj []⟩] ∧
    listToolsPipeline
      (envelopeToolsShape 1 [⟨"system_info", "demo", .obj []⟩]) 2 =
      .ok [⟨"system_info", "demo", .obj []⟩] ∧
    listToolsHandlerBody
      (bareToolsShape [⟨"system_info", "demo", .obj []⟩]) 1 =
      listToolsHandlerBody
        (envelopeToolsShape 1 [⟨"system_info", "demo", .obj []⟩]) 2 :=
  dual_shape_tools_list [⟨"system_info", "demo", .obj []⟩] 1 1 2
    (by constructor <;> decide)

/-! ## C9 -/

/-- Unfolding equation of the connection loop with no retries left. -/
theorem connectFrom_zero (outcome : Nat → Except String Unit)
    (schema : Except String Unit) (i : Nat) (le : Option String) :
    connectFrom outcome schema 0 i le =
      (match le with
       | some e => .error e
       | none => .error "Failed to connect to Neo4j after all retries",
       []) := rfl

/-- Unfolding equation of the connection loop with retries left. -/
theorem connectFrom_succ (outcome : Nat → Except String Unit)
    (schema : Except String Unit) (k i : Nat) (le : Option String) :
    connectFrom outcome schema (k + 1) i le =
      match outcome i with
      | .ok _ =>
        (match schema with
         | .ok _ => .ok ()
         | .error e => .error e,
         [ConnEv.attempt i])
      | .error e =>
        ((connectFrom outcome schema k (i + 1) (some e)).1,
         ConnEv.attempt i ::
           (if k > 0 then [ConnEv.sleep 2] else []) ++
             (connectFrom outcome schema k (i + 1) (some e)).2) := rfl

/-- The connection loop makes at most as many attempts as it has
retries left. -/
theorem connect_attempts_le (outcome : Nat → Except String Unit)
    (schema : Except String Unit) :
    ∀ r i le, attemptCount (connectFrom outcome schema r i le).2 ≤ r := by
  intro r
  induction r with
  | zero => intro i le; simp [connectFrom_zero, attemptCount]
  | succ k ih =>
    intro i le
    rw [connectFrom_succ]
    cases h : outcome i with
    | ok u => cases schema <;> simp [attemptCount]
    | error e =>
      have hrest := ih (i + 1) (some e)
      by_cases hk : k > 0
      · simp only [if_pos hk]
        simp [attemptCount, List.filter_cons, List.filter_append]
          at hrest ⊢
        omega
      · simp only [if_neg hk]
        simp [attemptCount, List.filter_cons, List.filter_append]
          at hrest ⊢
        omega

/-- Every attempt event in a connection trace is immediately followed,
when anything follows, by a two-second sleep. -/
theorem connect_trace_chain (outcome : Nat → Except String Unit)
    (schema : Except String Unit) :
    ∀ r i le,
      List.Chain' attemptThenSleep (connectFrom outcome schema r i le).2 := by
  intro r
  induction r with
  | zero => intro i le; simp [connectFrom_zero]
  | succ k ih =>
    intro i le
    rw [connectFrom_succ]
    cases h : outcome i with
    | ok u => cases schema <;> simp
    | error e =>
      by_cases hk : k > 0
      · simp only [if_pos hk, List.cons_append, List.nil_append]
        rw [List.chain'_cons]
        refine ⟨fun j hj => rfl, ?_⟩
        rw [List.chain'_cons']
        refine ⟨fun b hb => ?_, ih (i + 1) (some e)⟩
        intro j hj
        exact ConnEv.noConfusion hj
      · have hk0 : k = 0 := by omega
        subst hk0
        simp [connectFrom_zero]

/-- Every sleep event in a connection trace sleeps two seconds. -/
theorem connect_trace_sleeps (outcome : Nat → Except String Unit)
    (schema : Except String Unit) :
    ∀ r i le ev, ev ∈ (connectFrom outcome schema r i le).2 →
      ∀ s, ev = ConnEv.sleep s → s = 2 := by
  intro r
  induction r with
  | zero => intro i le ev hev; simp [connectFrom_zero] at hev
  | succ k ih =>
    intro i le ev hev s hs
    rw [connectFrom_succ] at hev
    cases h : outcome i with
    | ok u =>
      rw [h] at hev
      simp at hev
      subst hev
      exact ConnEv.noConfusion hs
    | error e =>
      rw [h] at hev
      simp only [List.cons_append, List.mem_cons, List.mem_append] at hev
      rcases hev with hev | hev
      · subst hev; exact ConnEv.noConfusion hs
      rcases hev with hev | hev
      · by_cases hk : k > 0
        · rw [if_pos hk] at hev
          simp at hev
          subst hev
          cases hs
          rfl
        · rw [if_neg hk] at hev
          simp at hev
      · exact ih (i + 1) (some e) ev hev s hs

/-- C9: Neo4jContext.connect makes at most five connection attempts,
sleeps two seconds between consecutive failed attempts, and, when all
five attempts fail, returns the last underlying connection error. -/
theorem connect_retry_behaviour :
    (∀ outcome schema,
      attemptCount (connectNeo4j outcome schema).2 ≤ 5) ∧
    (∀ outcome schema,
      List.Chain' attemptThenSleep (connectNeo4j outcome schema).2) ∧
    (∀ outcome schema ev s, ev ∈ (connectNeo4j outcome schema).2 →
      ev = ConnEv.sleep s → s = 2) ∧
    (∀ schema e0 e1 e2 e3 e4,
      connectNeo4j (fun i => .error ([e0, e1, e2, e3, e4].getD i ""))
        schema =
        (.error e4,
         [.attempt 0, .sleep 2, .attempt 1, .sleep 2, .attempt 2,
          .sleep 2, .attempt 3, .sleep 2, .attempt 4])) :=
  ⟨fun outcome schema => connect_attempts_le outcome schema 5 0 none,
   fun outcome schema => connect_trace_chain outcome schema 5 0 none,
   fun outcome schema ev s hev hs =>
     connect_trace_sleeps outcome schema 5 0 none ev hev s hs,
   fun _ _ _ _ _ _ => rfl⟩

/-- Witness for C9 at a concrete all-failures run and a concrete
immediate success. -/
theorem connect_retry_behaviour_witness :
    connectNeo4j (fun i => .error (["a", "b", "c", "d", "e"].getD i ""))
      (.ok ()) =
      (.error "e",
       [.attempt 0, .sleep 2, .attempt 1, .sleep 2, .attempt 2, .sleep 2,
        .attempt 3, .sleep 2, .attempt 4]) ∧
    attemptCount (connectNeo4j (fun _ => .ok ()) (.ok ())).2 ≤ 5 :=
  ⟨connect_retry_behaviour.2.2.2 (.ok ()) "a" "b" "c" "d" "e",
   connect_retry_behaviour.1 (fun _ => .ok ()) (.ok ())⟩

/-! ## C10 -/

/-- C10: every successful tools/call produces exactly one content
block, of the text variant, whose text is the pretty-printed
serialization of the data field of the result returned by the plugin
that was invoked. -/
theorem tool_call_content_shape (pretty : Json → String) (ps : Plugins)
    (now : Nat) (name : String) (args : List (String × Json))
    (blocks : List ContentBlock)
    (h : callPluginAsTool pretty ps now name args = .ok blocks) :
    ∃ plugin_name plugin capAndArgs pr,
      pluginNameFor name = .ok plugin_name ∧
      getPlugin ps plugin_name = some plugin ∧
      capabilityFor name args = .ok capAndArgs ∧
      plugin capAndArgs.1
        { correlation_id := "tool_call", timestamp := now,
          parameters := capAndArgs.2 } capAndArgs.2 = .ok pr ∧
      blocks = [ContentBlock.text (pretty pr.data)] := by
  unfold callPluginAsTool at h
  split at h
  next => exact Except.noConfusion h
  next plugin_name heq1 =>
    split at h
    next => exact Except.noConfusion h
    next plugin heq2 =>
      split at h
      next => exact Except.noConfusion h
      next capAndArgs heq3 =>
        split at h
        next e heq4 => exact Except.noConfusion h
        next result heq4 =>
          injection h with h'
          exact ⟨plugin_name, plugin, capAndArgs, result, heq1, heq2, heq3,
            heq4, h'.symm⟩

/-- Witness for C10 at a concrete successful system_info call. -/
theorem tool_call_content_shape_witness :
    callPluginAsTool demoEnv.pretty demoEnv.plugins 0 "system_info" [] =
      .ok [ContentBlock.text "pretty"] ∧
    ∃ plugin_name plugin capAndArgs pr,
      pluginNameFor "system_info" = .ok plugin_name ∧
      getPlugin demoEnv.plugins plugin_name = some plugin ∧
      capabilityFor "system_info" [] = .ok capAndArgs ∧
      plugin capAndArgs.1
        { correlation_id := "tool_call", timestamp := 0,
          parameters := capAndArgs.2 } capAndArgs.2 = .ok pr ∧
      [ContentBlock.text "pretty"] =
        [ContentBlock.text (demoEnv.pretty pr.data)] :=
  ⟨rfl,
   tool_call_content_shape demoEnv.pretty demoEnv.plugins 0 "system_info"
     [] [ContentBlock.text "pretty"] rfl⟩

end AgentAi
